import Mathlib

/-!
Shallow embedding of the sun_track browser dashboard:
`src/unnamed/part_000` (socket handler, Plotly charts, control surface) and
`src/static/js/threejs-app.js` (class PVVisualization, the Three.js scene).

JavaScript numbers are modelled as exact rationals extended with the three
IEEE non-finite values (`nan`, `inf`, `ninf`); arbitrary JavaScript values
(which may be `undefined` or a string, as in a malformed `time` field) are
modelled by `JVal`.  External library calls (Plotly, Three.js) are modelled
by their documented observable effect on the chart registry / scene graph.
A JavaScript function that can throw is modelled as returning `state × Bool`,
where the Bool is `true` iff the call ran to completion; on `false` the
returned state is the state at the point the exception was raised (JS
exceptions do not roll back earlier mutations).
-/

namespace SunTrack

/-- A JavaScript number: a finite value (exact rational) or NaN / ±Infinity. -/
inductive JNum where
  | fin (q : ℚ)
  | nan
  | inf
  | ninf
deriving DecidableEq

/-- Whether a JavaScript number is finite (neither NaN nor ±Infinity). -/
def JNum.finite : JNum → Bool
  | .fin _ => true
  | _ => false

/-- IEEE-style multiplication on the JNum model.  ℚ has no signed zero;
the unsigned zero is treated as +0 (the payloads this client multiplies are
non-negative). -/
def JNum.mul : JNum → JNum → JNum
  | nan, _ => nan
  | _, nan => nan
  | fin a, fin b => fin (a * b)
  | inf, fin b => if b = 0 then nan else if 0 < b then inf else ninf
  | fin a, inf => if a = 0 then nan else if 0 < a then inf else ninf
  | ninf, fin b => if b = 0 then nan else if 0 < b then ninf else inf
  | fin a, ninf => if a = 0 then nan else if 0 < a then ninf else inf
  | inf, inf => inf
  | inf, ninf => ninf
  | ninf, inf => ninf
  | ninf, ninf => inf

/-- IEEE-style division on the JNum model: `x / 0` is NaN when `x = 0`,
±Infinity otherwise (ℚ has no signed zero; division by the unsigned zero
behaves as division by +0). -/
def JNum.div : JNum → JNum → JNum
  | nan, _ => nan
  | _, nan => nan
  | fin a, fin b =>
      if b = 0 then (if a = 0 then nan else if 0 < a then inf else ninf)
      else fin (a / b)
  | fin _, inf => fin 0
  | fin _, ninf => fin 0
  | inf, fin b => if 0 ≤ b then inf else ninf
  | ninf, fin b => if 0 ≤ b then ninf else inf
  | inf, inf => nan
  | inf, ninf => nan
  | ninf, inf => nan
  | ninf, ninf => nan

/-- A JavaScript value as it may appear in an inbound message field:
a number, a string, or `undefined` (the result of reading an absent
property). -/
inductive JVal where
  | jnum (n : JNum)
  | str (s : String)
  | undefined
deriving DecidableEq

/-- JavaScript `ToNumber` coercion as exercised by this client: `undefined`
coerces to NaN, and so does every string that is not a numeral (the only
strings reaching arithmetic here, e.g. `"abc"`, are non-numeric; numeral
strings are not modelled because none occurs). -/
def JVal.toNumber : JVal → JNum
  | .jnum n => n
  | .str _ => .nan
  | .undefined => .nan

/-- One simulation instant as received in `current_data`.  All fields are
plain property reads in the source, hence any of them may be absent
(`undefined`); `time` may additionally hold a non-numeric value, which the
source never checks. -/
structure Snapshot where
  time : JVal := .undefined
  total_irradiance : Option ℚ := none
  poa_glb : Option ℚ := none
  panel_tilt : Option ℚ := none
  panel_azimuth : Option ℚ := none
  sun_elevation : Option ℚ := none
  sun_azimuth : Option ℚ := none
  sensor_readings : Option (List ℚ) := none
deriving DecidableEq

/-- Reading an optional numeric property of a snapshot yields the number
when present and `undefined` when absent (`data.total_irradiance` etc.). -/
def fieldVal : Option ℚ → JVal
  | some q => .jnum (.fin q)
  | none => .undefined

/-- One Plotly trace: a named series with parallel x/y point lists (the y
values keep full JS generality, since the source appends unchecked property
reads). -/
structure Trace where
  name : String
  dash : Option String := none
  xs : List JNum := []
  ys : List JVal := []
deriving DecidableEq

/-- One Plotly chart: layout titles plus the ordered trace list. -/
structure Chart where
  title : String
  xTitle : String
  yTitle : String
  data : List Trace
deriving DecidableEq

/-- The Plotly registry: charts keyed by the id of the DOM element they were
created on (`Plotly.newPlot(id, …)`). -/
abbrev PlotlyState := List (String × Chart)

/-- Look a chart up by element id in the Plotly registry. -/
def lookupChart : PlotlyState → String → Option Chart
  | [], _ => none
  | (k, c) :: rest, id => if k = id then some c else lookupChart rest id

/-- Replace the chart stored under an element id. -/
def setChart (st : PlotlyState) (id : String) (c : Chart) : PlotlyState :=
  st.map (fun p => if p.1 = id then (id, c) else p)

/-- Replace the element at one position of a list, leaving other positions
(and out-of-range indices) unchanged. -/
def modifyIdx : List α → Nat → (α → α) → List α
  | [], _, _ => []
  | a :: as, 0, f => f a :: as
  | a :: as, n + 1, f => a :: modifyIdx as n f

/-- Append one `(x, y)` point to a trace. -/
def extendTrace (t : Trace) (p : JNum × JVal) : Trace :=
  { t with xs := t.xs ++ [p.1], ys := t.ys ++ [p.2] }

/-- Append the i-th update point to the trace at the i-th listed index. -/
def extendData : List Trace → List (Nat × JNum × JVal) → List Trace
  | ts, [] => ts
  | ts, (i, x, y) :: rest => extendData (modifyIdx ts i (fun t => extendTrace t (x, y))) rest

/-- Model of `Plotly.extendTraces(id, {x, y}, indices)`: appends one point
per listed trace index.  Plotly throws (Bool `false`, state unchanged) when
no chart is registered under the given element id or an index is out of
range; the update arrays in this source always carry one point per index. -/
def plotlyExtendTraces (st : PlotlyState) (id : String) (upd : List (JNum × JVal))
    (idxs : List Nat) : PlotlyState × Bool :=
  match lookupChart st id with
  | none => (st, false)
  | some c =>
      if idxs.all (fun i => i < c.data.length) then
        (setChart st id { c with data := extendData c.data (idxs.zip upd) }, true)
      else (st, false)

/-- Remove the traces at the listed indices, keeping the rest in order. -/
def removeIdxs (ts : List Trace) (idxs : List Nat) : List Trace :=
  (ts.enum.filter (fun p => ¬ p.1 ∈ idxs)).map (fun p => p.2)

/-- Model of `Plotly.deleteTraces(id, indices)`: removes the listed traces.
Plotly throws (Bool `false`, state unchanged) when no DOM element with the
given id carries a chart. -/
def plotlyDeleteTraces (st : PlotlyState) (id : String) (idxs : List Nat) :
    PlotlyState × Bool :=
  match lookupChart st id with
  | none => (st, false)
  | some c => (setChart st id { c with data := removeIdxs c.data idxs }, true)

/-- `initCharts` (part_000 lines 31-96): the four charts exactly as created
by the `Plotly.newPlot` calls, keyed by their element ids. -/
def initCharts : PlotlyState :=
  [ ("irradiance-chart",
     { title := "Irradiance Over Time", xTitle := "Time (min)",
       yTitle := "Irradiance (W/m²)",
       data := [ { name := "Total Irradiance" },
                 { name := "Theoretical Maximum", dash := some "dot" } ] }),
    ("angles-chart",
     { title := "Angles Over Time", xTitle := "Time (min)",
       yTitle := "Angle (deg)",
       data := [ { name := "Panel Tilt" },
                 { name := "Panel Azimuth" },
                 { name := "Sun Elevation", dash := some "dot" } ] }),
    ("sensors-chart",
     { title := "Sensor Readings Over Time", xTitle := "Time (min)",
       yTitle := "Irradiance (W/m²)",
       data := [ { name := "Sensor 1" }, { name := "Sensor 2" },
                 { name := "Sensor 3" }, { name := "Sensor 4" } ] }),
    ("efficiency-chart",
     { title := "System Efficiency Over Time", xTitle := "Time (min)",
       yTitle := "Efficiency (%)",
       data := [ { name := "Efficiency" } ] }) ]

/-- The global `charts` object (part_000 line 3): its keys, each holding the
graph div returned by `Plotly.newPlot`; modelled as key ↦ element id, since
the graph div is exactly the chart registered under that element id. -/
def chartsMap : List (String × String) :=
  [ ("irradiance", "irradiance-chart"),
    ("angles", "angles-chart"),
    ("sensors", "sensors-chart"),
    ("efficiency", "efficiency-chart") ]

/-- `const timeMin = data.time / 60` (part_000 line 124). -/
def timeMinOf (d : Snapshot) : JNum :=
  JNum.div d.time.toNumber (.fin 60)

/-- `const efficiency = 100.0 * data.total_irradiance / data.poa_glb`
(part_000 line 152), with JS left-to-right evaluation and undefined
coercing to NaN. -/
def efficiencyOf (d : Snapshot) : JNum :=
  JNum.div (JNum.mul (.fin 100) (fieldVal d.total_irradiance).toNumber)
    (fieldVal d.poa_glb).toNumber

/-- Reading `data.sensor_readings[i]` once the array is known present:
the entry when it exists, `undefined` past the end. -/
def sensorAt (rs : List ℚ) (i : Nat) : JVal :=
  match rs[i]? with
  | some q => .jnum (.fin q)
  | none => .undefined

/-- `updateCharts` (part_000 lines 123-157).  No field is validated: every
trace of the irradiance and angles charts receives a point unconditionally
(with y `undefined` when the field is absent).  When `sensor_readings` is
absent, `data.sensor_readings[0]` raises a TypeError, so the sensors and
efficiency charts receive no point and the Bool result is `false`. -/
def updateCharts (d : Snapshot) (st : PlotlyState) : PlotlyState × Bool :=
  let tm := timeMinOf d
  let r1 := plotlyExtendTraces st "irradiance-chart"
      [(tm, fieldVal d.total_irradiance), (tm, fieldVal d.poa_glb)] [0, 1]
  if !r1.2 then (r1.1, false) else
  let r2 := plotlyExtendTraces r1.1 "angles-chart"
      [(tm, fieldVal d.panel_tilt), (tm, fieldVal d.panel_azimuth),
       (tm, fieldVal d.sun_elevation)] [0, 1, 2]
  if !r2.2 then (r2.1, false) else
  match d.sensor_readings with
  | none => (r2.1, false)
  | some rs =>
      let r3 := plotlyExtendTraces r2.1 "sensors-chart"
          [(tm, sensorAt rs 0), (tm, sensorAt rs 1), (tm, sensorAt rs 2),
           (tm, sensorAt rs 3)] [0, 1, 2, 3]
      if !r3.2 then (r3.1, false) else
      plotlyExtendTraces r3.1 "efficiency-chart"
          [(tm, .jnum (efficiencyOf d))] [0]

/-- The trace at one index of the chart registered under an element id. -/
def traceAt (st : PlotlyState) (id : String) (i : Nat) : Option Trace :=
  match lookupChart st id with
  | none => none
  | some c => c.data[i]?

/-- An RGB color with rational components, as set by `color.setRGB`. -/
structure Color where
  r : ℚ
  g : ℚ
  b : ℚ
deriving DecidableEq

/-- The mutable state of the `PVVisualization` scene graph
(threejs-app.js).  Rotations and positions written through `degToRad` and
trigonometry are real numbers; colors, cloud x-offsets and opacities stay
rational.  `createPanel` builds ONE `sensorMaterial` and attaches it to all
four sensor meshes, so the material store starts as a single shared entry
and `sensorMatIdx` records, per sensor, which stored material the mesh
references. -/
structure SceneState where
  panelRotX : ℝ
  panelRotY : ℝ
  sunX : ℝ
  sunY : ℝ
  sunZ : ℝ
  lightX : ℝ
  lightY : ℝ
  lightZ : ℝ
  sensorMatIdx : List Nat
  materials : List Color
  cloudX : List ℚ
  cloudOpacity : List ℚ

/-- `THREE.MathUtils.degToRad`: degrees × π / 180. -/
noncomputable def degToRad (d : ℝ) : ℝ := d * (Real.pi / 180)

/-- `updatePanelOrientation(tilt, azimuth)` (threejs-app.js lines 143-148):
`panel.rotation.x = degToRad(tilt)`, `panel.rotation.y = degToRad(azimuth - 180)`. -/
noncomputable def updatePanelOrientation (tilt azimuth : ℚ) (s : SceneState) : SceneState :=
  { s with panelRotX := degToRad (tilt : ℝ),
           panelRotY := degToRad ((azimuth : ℝ) - 180) }

/-- `updateSunPosition(elevation, azimuth)` (threejs-app.js lines 150-166):
spherical-to-Cartesian at distance 10, then
`sunLight.position.copy(sun.position)`. -/
noncomputable def updateSunPosition (elevation azimuth : ℚ) (s : SceneState) : SceneState :=
  let distance : ℝ := 10
  let phi := degToRad (90 - (elevation : ℝ))
  let theta := degToRad (azimuth : ℝ)
  let sx := distance * Real.sin phi * Real.cos theta
  let sy := distance * Real.cos phi
  let sz := distance * Real.sin phi * Real.sin theta
  { s with sunX := sx, sunY := sy, sunZ := sz,
           lightX := sx, lightY := sy, lightZ := sz }

/-- The red→green gradient of `updateSensorReadings`:
`intensity = Math.min(value / 1000, 1)`; `setRGB(1 - intensity, intensity, 0)`. -/
def sensorColorOf (v : ℚ) : Color :=
  let intensity := min (v / 1000) 1
  { r := 1 - intensity, g := intensity, b := 0 }

/-- Overwrite the stored material at one index of the material store. -/
def setColorAt (mats : List Color) (i : Nat) (c : Color) : List Color :=
  modifyIdx mats i (fun _ => c)

/-- The `readings.forEach((value, index) => …)` loop of
`updateSensorReadings` (threejs-app.js lines 168-179): iteration `idx` sets
the color of the material referenced by `this.sensors[idx]`; when `idx` is
past the sensor list, `this.sensors[idx]` is `undefined` and reading
`.material` raises a TypeError (Bool `false`, mutations so far kept). -/
def applyReadings (s : SceneState) : List ℚ → Nat → SceneState × Bool
  | [], _ => (s, true)
  | v :: rest, idx =>
      match s.sensorMatIdx[idx]? with
      | none => (s, false)
      | some mi =>
          applyReadings
            { s with materials := setColorAt s.materials mi (sensorColorOf v) }
            rest (idx + 1)

/-- `updateSensorReadings(readings)` (threejs-app.js lines 168-179). -/
def updateSensorReadings (readings : List ℚ) (s : SceneState) : SceneState × Bool :=
  applyReadings s readings 0

/-- One cloud move of `updateClouds`: `cloud.position.x += 0.01;
if (cloud.position.x > 5) cloud.position.x = -5`. -/
def cloudStep (x : ℚ) : ℚ :=
  let x1 := x + 1 / 100
  if x1 > 5 then -5 else x1

/-- `updateClouds(cloudData)` (threejs-app.js lines 181-197): every cloud
group drifts by one `cloudStep`; when `cloudData` is passed (it never is in
this source — `updateFromData` calls `updateClouds()`), clouds with a
matching entry get opacity `0.3 + cloudData[index].opacity * 0.7`
(`cloudData` is modelled as the list of its per-cloud `.opacity` values). -/
def updateClouds (cloudData : Option (List ℚ)) (s : SceneState) : SceneState :=
  { s with
    cloudX := s.cloudX.map cloudStep,
    cloudOpacity :=
      s.cloudOpacity.enum.map (fun p =>
        match cloudData with
        | some cd =>
            match cd[p.1]? with
            | some cov => 3 / 10 + cov * 7 / 10
            | none => p.2
        | none => p.2) }

/-- `animate()` (threejs-app.js lines 208-211): schedules the next frame via
`requestAnimationFrame` and calls `renderer.render(scene, camera)`; neither
call mutates any scene object, so one animation tick is the identity on the
scene state. -/
def animate (s : SceneState) : SceneState := s

/-- `updateFromData(data)` (threejs-app.js lines 214-228): panel orientation
only when BOTH `panel_tilt` and `panel_azimuth` are present; sun position
only when BOTH `sun_elevation` and `sun_azimuth` are present; sensor colors
when `sensor_readings` is present (throwing past index 3); finally
`updateClouds()` with no cloud data. -/
noncomputable def updateFromData (d : Snapshot) (s : SceneState) : SceneState × Bool :=
  let s1 :=
    match d.panel_tilt, d.panel_azimuth with
    | some t, some a => updatePanelOrientation t a s
    | _, _ => s
  let s2 :=
    match d.sun_elevation, d.sun_azimuth with
    | some e, some a => updateSunPosition e a s1
    | _, _ => s1
  match d.sensor_readings with
  | some rs =>
      let r := updateSensorReadings rs s2
      if r.2 then (updateClouds none r.1, true) else (r.1, false)
  | none => (updateClouds none s2, true)

/-- The full client state: the Plotly registry, the global `charts` object
(key ↦ element id of the graph div it holds), the module-level
`simulationData` array, the optional `pvVisualization` scene, and the DOM
widgets (progress bar percentage, summary-stats panel, status line). -/
structure ClientState where
  plotly : PlotlyState
  charts : List (String × String)
  simulationData : List Snapshot
  scene : Option SceneState
  progressPercent : ℚ
  summaryStats : List (String × ℚ)
  statusText : String

/-- One inbound `simulation_data` message:
`{progress, summary_stats?, current_data?}`. -/
structure SimMessage where
  progress : ℚ
  summary_stats : Option (List (String × ℚ)) := none
  current_data : Option Snapshot := none

/-- `handleSimulationData(data)` (part_000 lines 99-120): update the
progress bar, then the summary stats if present, then — with no validation
whatsoever — push `current_data` onto `simulationData`, apply it to the
scene if `pvVisualization` exists, and append it to the charts.  A throw in
a sink propagates (Bool `false`), keeping every mutation made before it. -/
noncomputable def handleSimulationData (msg : SimMessage) (c : ClientState) :
    ClientState × Bool :=
  let c1 := { c with progressPercent := msg.progress }
  let c2 :=
    match msg.summary_stats with
    | some stats => { c1 with summaryStats := stats }
    | none => c1
  match msg.current_data with
  | none => (c2, true)
  | some cd =>
      let c3 := { c2 with simulationData := c2.simulationData ++ [cd] }
      match c3.scene with
      | some s =>
          let r := updateFromData cd s
          let c4 := { c3 with scene := some r.1 }
          if r.2 then
            let rc := updateCharts cd c4.plotly
            ({ c4 with plotly := rc.1 }, rc.2)
          else (c4, false)
      | none =>
          let rc := updateCharts cd c3.plotly
          ({ c3 with plotly := rc.1 }, rc.2)

/-- The `for (const chartId in charts)` loop of `resetCharts` (part_000
lines 229-233): for each key of the `charts` object, read
`charts[chartId].data.length` from the stored graph div, then call
`Plotly.deleteTraces(chartId, [...Array(n).keys()])` — note the argument is
the KEY (e.g. `"irradiance"`), not the element id the chart was created on
(e.g. `"irradiance-chart"`).  Either failing lookup raises (Bool `false`). -/
def resetChartsGo (c : ClientState) : List (String × String) → ClientState × Bool
  | [] => (c, true)
  | (key, divId) :: rest =>
      match lookupChart c.plotly divId with
      | none => (c, false)
      | some ch =>
          let r := plotlyDeleteTraces c.plotly key (List.range ch.data.length)
          if r.2 then resetChartsGo { c with plotly := r.1 } rest
          else ({ c with plotly := r.1 }, false)

/-- `resetCharts()` (part_000 lines 229-233). -/
def resetCharts (c : ClientState) : ClientState × Bool :=
  resetChartsGo c c.charts

/-- `resetSimulation()` (part_000 lines 219-226): clear `simulationData`,
call `resetCharts()` (whose throw propagates, skipping the rest), then set
the status line, the progress bar and the summary panel. -/
def resetSimulation (c : ClientState) : ClientState × Bool :=
  let c1 := { c with simulationData := [] }
  let r := resetCharts c1
  if !r.2 then (r.1, false) else
  let c2 := { r.1 with statusText := "Simulation reset" }
  let c3 := { c2 with progressPercent := 0 }
  ({ c3 with summaryStats := [] }, true)

/-- The color a sensor mesh displays: the stored material its mesh
references. -/
def sensorDisplayColor (s : SceneState) (i : Nat) : Option Color :=
  match s.sensorMatIdx[i]? with
  | none => none
  | some mi => s.materials[mi]?

/-- A concrete scene as built by the `PVVisualization` constructor: panel
unrotated, sun at the origin (THREE default), light at `(10, 10, 10)`
(initScene), all four sensors sharing the single red material, three clouds
(their creation-time x-offsets are randomized in the source; fixed sample
values stand in here) with material opacity `0.7`. -/
noncomputable def sampleScene : SceneState :=
  { panelRotX := 0, panelRotY := 0,
    sunX := 0, sunY := 0, sunZ := 0,
    lightX := 10, lightY := 10, lightZ := 10,
    sensorMatIdx := [0, 0, 0, 0],
    materials := [{ r := 1, g := 0, b := 0 }],
    cloudX := [0, 1, 2],
    cloudOpacity := [7 / 10, 7 / 10, 7 / 10] }

/-- The client state right after page load (`initSocket` + `initCharts` +
`PVVisualization` constructed). -/
noncomputable def initialClient : ClientState :=
  { plotly := initCharts, charts := chartsMap, simulationData := [],
    scene := some sampleScene, progressPercent := 0, summaryStats := [],
    statusText := "Connected to server" }

/-- A snapshot with `poa_glb = 0` and positive `total_irradiance`. -/
def snapZero : Snapshot :=
  { time := .jnum (.fin 0), total_irradiance := some 500, poa_glb := some 0,
    sensor_readings := some [0, 0, 0, 0] }

/-- A snapshot whose `time` is the non-numeric string `"abc"`. -/
def snapAbc : Snapshot :=
  { time := .str "abc", total_irradiance := some 100, poa_glb := some 800,
    sensor_readings := some [1, 2, 3, 4] }

/-- A `simulation_data` message carrying the malformed-time snapshot. -/
def msgAbc : SimMessage :=
  { progress := 50, current_data := some snapAbc }

/-- A snapshot with `total_irradiance` absent but other chart fields
present. -/
def snapNoTI : Snapshot :=
  { time := .jnum (.fin 60), poa_glb := some 900,
    sensor_readings := some [1, 2, 3, 4] }

/-- A snapshot carrying nothing but a numeric `time`. -/
def snapNoSens : Snapshot :=
  { time := .jnum (.fin 0) }

/-- A snapshot with `panel_azimuth` present but `panel_tilt` absent. -/
def snapAzOnly : Snapshot :=
  { time := .jnum (.fin 0), panel_azimuth := some 90 }

/-- A fully populated, well-formed snapshot (time 60 s). -/
def snapFull : Snapshot :=
  { time := .jnum (.fin 60), total_irradiance := some 500,
    poa_glb := some 1000, panel_tilt := some 30, panel_azimuth := some 180,
    sun_elevation := some 45, sun_azimuth := some 90,
    sensor_readings := some [100, 200, 300, 400] }

/-- A second fully populated snapshot (time 120 s). -/
def snapFull2 : Snapshot :=
  { snapFull with time := .jnum (.fin 120), total_irradiance := some 600 }

/-- A well-formed `simulation_data` message. -/
def msgFull : SimMessage :=
  { progress := 50, current_data := some snapFull }

/-- A second well-formed `simulation_data` message. -/
def msgFull2 : SimMessage :=
  { progress := 100, current_data := some snapFull2 }

/-- The client state after one well-formed message has been processed. -/
noncomputable def dirtyClient : ClientState :=
  (handleSimulationData msgFull initialClient).1

/-- Whatever branches `handleSimulationData` takes, the received
`current_data` is appended to the `simulationData` array. -/
theorem handleSim_pushes (msg : SimMessage) (c : ClientState) (cd : Snapshot)
    (h : msg.current_data = some cd) :
    (handleSimulationData msg c).1.simulationData = c.simulationData ++ [cd] := by
  unfold handleSimulationData
  rw [h]
  cases msg.summary_stats <;> cases hs : c.scene <;>
    simp [hs] <;>
    cases (updateFromData cd _).2 <;> simp

/-- Dividing a finite JS number by the finite zero never yields a finite
number (it is NaN or ±Infinity). -/
theorem finOverZero_nonfinite (a : ℚ) :
    (JNum.div (JNum.fin a) (JNum.fin 0)).finite = false := by
  simp only [JNum.div, if_pos rfl]
  split_ifs <;> rfl

/-- C1: the spec claims that a snapshot with `poa_glb = 0` adds no point to
the Efficiency series and that no Infinity is ever appended; in the code
`updateCharts` computes `100 * total_irradiance / poa_glb` unguarded and
appends it, so `snapZero` (poa_glb 0, total_irradiance 500) appends the
value Infinity to the Efficiency series. -/
theorem updateCharts_poaZero_appends_infinity :
    snapZero.poa_glb = some 0 ∧
    (traceAt (updateCharts snapZero initCharts).1 "efficiency-chart" 0).map Trace.ys
      = some [JVal.jnum JNum.inf] ∧
    JNum.inf.finite = false := by
  refine ⟨rfl, ?_, rfl⟩
  norm_num +decide [updateCharts, plotlyExtendTraces, lookupChart, setChart,
    initCharts, traceAt, extendData, modifyIdx, extendTrace, timeMinOf,
    efficiencyOf, fieldVal, sensorAt, snapZero, JVal.toNumber, JNum.div,
    JNum.mul]

/-- C1 amended: whenever the efficiency update is reached (that is,
`sensor_readings` is present, so the sensors loop did not throw first) and
`poa_glb` is zero or absent, `updateCharts` still appends exactly one point
to the Efficiency series, and the appended value is non-finite (NaN or
±Infinity). -/
theorem updateCharts_eff_nonfinite (d : Snapshot)
    (hs : d.sensor_readings.isSome = true)
    (hp : d.poa_glb = some 0 ∨ d.poa_glb = none) :
    (efficiencyOf d).finite = false ∧
    (traceAt (updateCharts d initCharts).1 "efficiency-chart" 0).map Trace.ys
      = some [JVal.jnum (efficiencyOf d)] := by
  obtain ⟨rs, hrs⟩ := Option.isSome_iff_exists.mp hs
  constructor
  · unfold efficiencyOf
    rcases hp with hp | hp <;> rw [hp] <;>
      rcases hti : d.total_irradiance with _ | q <;>
      simp only [fieldVal, JVal.toNumber] <;>
      first
        | rfl
        | exact finOverZero_nonfinite _
  · norm_num +decide [updateCharts, plotlyExtendTraces, lookupChart, setChart,
      initCharts, traceAt, extendData, modifyIdx, extendTrace, hrs]

/-- C1 amended, instantiated at `snapZero`. -/
theorem updateCharts_eff_nonfinite_witness :
    (efficiencyOf snapZero).finite = false ∧
    (traceAt (updateCharts snapZero initCharts).1 "efficiency-chart" 0).map Trace.ys
      = some [JVal.jnum (efficiencyOf snapZero)] :=
  updateCharts_eff_nonfinite snapZero rfl (Or.inl rfl)

/-- C10: after any `updateClouds` call every cloud x-offset is at most 5:
each step adds 0.01 and wraps any result exceeding 5 back to -5. -/
theorem updateClouds_x_bounded (cd : Option (List ℚ)) (s : SceneState) (q : ℚ)
    (hq : q ∈ (updateClouds cd s).cloudX) : q ≤ 5 := by
  simp only [updateClouds, List.mem_map] at hq
  obtain ⟨x, _, rfl⟩ := hq
  simp only [cloudStep]
  split
  · norm_num
  · linarith [le_of_not_lt (by assumption : ¬ x + 1 / 100 > 5)]

/-- C10, instantiated: the first cloud of the sample scene sits at 0.01
after one update, and 0.01 ≤ 5. -/
theorem updateClouds_x_bounded_witness : (1 / 100 : ℚ) ≤ 5 :=
  updateClouds_x_bounded none sampleScene (1 / 100)
    (by norm_num [updateClouds, cloudStep, sampleScene])

/-- C6: for every elevation e and azimuth a (degrees), `updateSunPosition`
places the sun at (R sinφ cosθ, R cosφ, R sinφ sinθ) with
φ = (90 - e)·π/180, θ = a·π/180 and R = 10; the directional light always
coincides with the sun afterwards; and the boundary cases resolve to
(0, 10, 0) for e = 90, a = 0 and to (10, 0, 0) for e = 0, a = 0. -/
theorem updateSunPosition_spec (e a : ℚ) (s : SceneState) :
    ((updateSunPosition e a s).sunX
        = 10 * Real.sin (degToRad (90 - (e : ℝ))) * Real.cos (degToRad (a : ℝ)) ∧
     (updateSunPosition e a s).sunY = 10 * Real.cos (degToRad (90 - (e : ℝ))) ∧
     (updateSunPosition e a s).sunZ
        = 10 * Real.sin (degToRad (90 - (e : ℝ))) * Real.sin (degToRad (a : ℝ))) ∧
    ((updateSunPosition e a s).lightX = (updateSunPosition e a s).sunX ∧
     (updateSunPosition e a s).lightY = (updateSunPosition e a s).sunY ∧
     (updateSunPosition e a s).lightZ = (updateSunPosition e a s).sunZ) ∧
    ((updateSunPosition 90 0 s).sunX = 0 ∧
     (updateSunPosition 90 0 s).sunY = 10 ∧
     (updateSunPosition 90 0 s).sunZ = 0) ∧
    ((updateSunPosition 0 0 s).sunX = 10 ∧
     (updateSunPosition 0 0 s).sunY = 0 ∧
     (updateSunPosition 0 0 s).sunZ = 0) := by
  have hpi : (90 : ℝ) * (Real.pi / 180) = Real.pi / 2 := by ring
  refine ⟨⟨rfl, rfl, rfl⟩, ⟨rfl, rfl, rfl⟩, ?_, ?_⟩
  · simp [updateSunPosition, degToRad]
  · simp only [updateSunPosition, degToRad]
    norm_num [hpi]

/-- C2: the spec claims a `simulation_data` message whose `current_data`
has a non-numeric `time` is rejected with no state change; the code
validates nothing: the malformed snapshot is pushed onto `simulationData`
and a chart point with x = NaN is appended. -/
theorem handleSim_malformed_time_mutates :
    snapAbc.time = JVal.str "abc" ∧
    initialClient.simulationData = [] ∧
    (handleSimulationData msgAbc initialClient).1.simulationData = [snapAbc] ∧
    (traceAt (handleSimulationData msgAbc initialClient).1.plotly
        "irradiance-chart" 0).map Trace.xs = some [JNum.nan] := by
  refine ⟨rfl, rfl, ?_, ?_⟩
  · simpa using handleSim_pushes msgAbc initialClient snapAbc rfl
  · norm_num +decide [handleSimulationData, msgAbc, snapAbc, initialClient,
      sampleScene, updateFromData, updateSensorReadings, applyReadings,
      setColorAt, modifyIdx, sensorColorOf, updateClouds, cloudStep,
      updateCharts, plotlyExtendTraces, lookupChart, setChart, initCharts,
      traceAt, extendData, extendTrace, timeMinOf, efficiencyOf, fieldVal,
      sensorAt, JVal.toNumber, JNum.div, JNum.mul]

/-- C2 amended: `handleSimulationData` performs no validation: any message
carrying a `current_data`, even one whose `time` coerces to NaN, has that
snapshot appended to `simulationData`, and the x-value derived for its
chart points is NaN. -/
theorem handleSim_no_validation (msg : SimMessage) (c : ClientState)
    (cd : Snapshot) (h : msg.current_data = some cd)
    (ht : cd.time.toNumber = JNum.nan) :
    (handleSimulationData msg c).1.simulationData = c.simulationData ++ [cd] ∧
    timeMinOf cd = JNum.nan := by
  refine ⟨handleSim_pushes msg c cd h, ?_⟩
  simp [timeMinOf, ht, JNum.div]

/-- C2 amended, instantiated at the malformed-time message. -/
theorem handleSim_no_validation_witness :
    (handleSimulationData msgAbc initialClient).1.simulationData
      = initialClient.simulationData ++ [snapAbc] ∧
    timeMinOf snapAbc = JNum.nan :=
  handleSim_no_validation msgAbc initialClient snapAbc rfl rfl

/-- C3: the spec claims a series receives a point only if its field is
present; the code appends unconditionally: `snapNoTI` has no
`total_irradiance`, yet the Total Irradiance series receives the point
(1, undefined). -/
theorem updateCharts_appends_absent_field :
    snapNoTI.total_irradiance = none ∧
    (traceAt (updateCharts snapNoTI initCharts).1 "irradiance-chart" 0).map Trace.ys
      = some [JVal.undefined] ∧
    (traceAt (updateCharts snapNoTI initCharts).1 "irradiance-chart" 0).map Trace.xs
      = some [JNum.fin 1] := by
  refine ⟨rfl, ?_, ?_⟩ <;>
    norm_num +decide [updateCharts, plotlyExtendTraces, lookupChart, setChart,
      initCharts, traceAt, extendData, modifyIdx, extendTrace, timeMinOf,
      efficiencyOf, fieldVal, sensorAt, snapNoTI, JVal.toNumber, JNum.div,
      JNum.mul]

/-- C3 amended: `updateCharts` appends one point per tick to every
irradiance and angles series unconditionally — with y `undefined` whenever
the field is absent — while the sensors and efficiency series receive their
point only when `sensor_readings` is present: when it is absent the update
throws after the irradiance and angles appends, leaving those two charts
without a point for the tick. -/
theorem updateCharts_per_series (d : Snapshot) :
    (traceAt (updateCharts d initCharts).1 "irradiance-chart" 0).map Trace.ys
      = some [fieldVal d.total_irradiance] ∧
    (traceAt (updateCharts d initCharts).1 "irradiance-chart" 1).map Trace.ys
      = some [fieldVal d.poa_glb] ∧
    (traceAt (updateCharts d initCharts).1 "angles-chart" 0).map Trace.ys
      = some [fieldVal d.panel_tilt] ∧
    (traceAt (updateCharts d initCharts).1 "angles-chart" 1).map Trace.ys
      = some [fieldVal d.panel_azimuth] ∧
    (traceAt (updateCharts d initCharts).1 "angles-chart" 2).map Trace.ys
      = some [fieldVal d.sun_elevation] ∧
    (d.sensor_readings = none →
      (updateCharts d initCharts).2 = false ∧
      (traceAt (updateCharts d initCharts).1 "sensors-chart" 0).map Trace.ys
        = some [] ∧
      (traceAt (updateCharts d initCharts).1 "efficiency-chart" 0).map Trace.ys
        = some []) := by
  cases hr : d.sensor_readings <;>
    norm_num +decide [updateCharts, plotlyExtendTraces, lookupChart, setChart,
      initCharts, traceAt, extendData, modifyIdx, extendTrace, hr]
  exact Option.some_ne_none _

/-- C3 amended, instantiated at a snapshot carrying only `time`: every
irradiance and angles series still gains an undefined-valued point, while
the sensors and efficiency series stay empty and the update throws. -/
theorem updateCharts_per_series_witness :
    (traceAt (updateCharts snapNoSens initCharts).1 "irradiance-chart" 0).map Trace.ys
      = some [fieldVal snapNoSens.total_irradiance] ∧
    (traceAt (updateCharts snapNoSens initCharts).1 "angles-chart" 0).map Trace.ys
      = some [fieldVal snapNoSens.panel_tilt] ∧
    (updateCharts snapNoSens initCharts).2 = false ∧
    (traceAt (updateCharts snapNoSens initCharts).1 "sensors-chart" 0).map Trace.ys
      = some [] ∧
    (traceAt (updateCharts snapNoSens initCharts).1 "efficiency-chart" 0).map Trace.ys
      = some [] := by
  have h := updateCharts_per_series snapNoSens
  have h6 := h.2.2.2.2.2 rfl
  exact ⟨h.1, h.2.2.1, h6.1, h6.2.1, h6.2.2⟩

/-- Whatever readings it is given, the sensor-color loop never changes the
panel rotation or the cloud offsets. -/
theorem applyReadings_keeps (rs : List ℚ) (idx : Nat) (s : SceneState) :
    (applyReadings s rs idx).1.panelRotX = s.panelRotX ∧
    (applyReadings s rs idx).1.panelRotY = s.panelRotY ∧
    (applyReadings s rs idx).1.cloudX = s.cloudX := by
  induction rs generalizing idx s with
  | nil => exact ⟨rfl, rfl, rfl⟩
  | cons v rest ih =>
      simp only [applyReadings]
      cases s.sensorMatIdx[idx]? with
      | none => exact ⟨rfl, rfl, rfl⟩
      | some mi => simpa using ih (idx + 1) _

/-- C4: the spec claims a snapshot missing `panel_tilt` still updates the
panel azimuth when `panel_azimuth` is present; in the code the panel is
re-oriented only when BOTH fields are present, so `snapAzOnly`
(azimuth 90, tilt absent) leaves the rotation at 0 although the claimed
update `degToRad (90 - 180)` is non-zero. -/
theorem updateFromData_azimuth_not_applied :
    snapAzOnly.panel_tilt = none ∧
    snapAzOnly.panel_azimuth = some 90 ∧
    sampleScene.panelRotY = 0 ∧
    (updateFromData snapAzOnly sampleScene).1.panelRotY = 0 ∧
    degToRad ((90 : ℝ) - 180) ≠ 0 := by
  refine ⟨rfl, rfl, rfl, ?_, ?_⟩
  · simp [updateFromData, snapAzOnly, updateClouds, sampleScene]
  · simp only [degToRad]
    norm_num [Real.pi_ne_zero]

/-- C4 amended: a snapshot missing `panel_tilt` leaves BOTH panel rotation
angles unchanged, whether or not `panel_azimuth` is present (the code
updates the panel orientation only when both fields are present); any
absent field still leaves its corresponding attribute unchanged. -/
theorem updateFromData_tilt_absent (d : Snapshot) (s : SceneState)
    (h : d.panel_tilt = none) :
    (updateFromData d s).1.panelRotX = s.panelRotX ∧
    (updateFromData d s).1.panelRotY = s.panelRotY := by
  have hx := fun rs idx s1 => (applyReadings_keeps rs idx s1).1
  have hy := fun rs idx s1 => (applyReadings_keeps rs idx s1).2.1
  unfold updateFromData
  rw [h]
  rcases d.sun_elevation with _ | e <;> rcases d.sun_azimuth with _ | a <;>
    rcases hr : d.sensor_readings with _ | rs <;>
    simp [updateClouds, updateSunPosition, updateSensorReadings, hx, hy] <;>
    split <;>
    simp [updateClouds, hx, hy]

/-- C4 amended, instantiated at `snapAzOnly` and the sample scene. -/
theorem updateFromData_tilt_absent_witness :
    (updateFromData snapAzOnly sampleScene).1.panelRotX = sampleScene.panelRotX ∧
    (updateFromData snapAzOnly sampleScene).1.panelRotY = sampleScene.panelRotY :=
  updateFromData_tilt_absent snapAzOnly sampleScene rfl

/-- C7: the spec claims clouds drift on every per-frame animation tick,
decoupled from snapshot arrival; in the code `animate` only re-renders
(cloud offsets unchanged), while applying a snapshot through
`updateFromData` is what advances the clouds. -/
theorem clouds_not_advanced_by_frame :
    animate sampleScene = sampleScene ∧
    sampleScene.cloudX = [0, 1, 2] ∧
    (updateFromData snapNoSens sampleScene).1.cloudX
      = [1 / 100, 101 / 100, 201 / 100] := by
  refine ⟨rfl, rfl, ?_⟩
  norm_num [updateFromData, snapNoSens, updateClouds, cloudStep, sampleScene]

/-- C7 amended: cloud positions advance only when a snapshot is applied:
the per-frame `animate` tick is the identity on the scene state, while
each `updateFromData` call (here on a snapshot without sensor readings, so
no throw intervenes) advances every cloud by one `cloudStep`. -/
theorem clouds_coupled_to_snapshots (d : Snapshot) (s : SceneState)
    (h : d.sensor_readings = none) :
    animate s = s ∧
    (updateFromData d s).1.cloudX = s.cloudX.map cloudStep := by
  refine ⟨rfl, ?_⟩
  unfold updateFromData
  rw [h]
  rcases d.panel_tilt with _ | t <;> rcases d.panel_azimuth with _ | a <;>
    rcases d.sun_elevation with _ | se <;> rcases d.sun_azimuth with _ | sa <;>
    simp [updateClouds, updateSunPosition, updatePanelOrientation]

/-- C7 amended, instantiated at the sample scene. -/
theorem clouds_coupled_to_snapshots_witness :
    animate sampleScene = sampleScene ∧
    (updateFromData snapNoSens sampleScene).1.cloudX
      = sampleScene.cloudX.map cloudStep :=
  clouds_coupled_to_snapshots snapNoSens sampleScene rfl

/-- C8: the spec claims snapshots are transient and never stored beyond
last-seen values; the code pushes every `current_data` onto the
module-level `simulationData` array, so after two messages both full
snapshots are retained. -/
theorem snapshots_accumulate :
    initialClient.simulationData = [] ∧
    (handleSimulationData msgFull2
        (handleSimulationData msgFull initialClient).1).1.simulationData
      = [snapFull, snapFull2] := by
  refine ⟨rfl, ?_⟩
  have h1 := handleSim_pushes msgFull initialClient snapFull rfl
  have h2 := handleSim_pushes msgFull2
    (handleSimulationData msgFull initialClient).1 snapFull2 rfl
  rw [h2, h1]
  rfl

/-- C8 amended: every received `current_data` snapshot is appended whole to
the module-level `simulationData` array, whose length therefore grows by
one per message — an unbounded history, cleared only by `resetSimulation`. -/
theorem handleSim_accumulates (msg : SimMessage) (c : ClientState)
    (cd : Snapshot) (h : msg.current_data = some cd) :
    (handleSimulationData msg c).1.simulationData = c.simulationData ++ [cd] ∧
    ((handleSimulationData msg c).1.simulationData).length
      = c.simulationData.length + 1 := by
  refine ⟨handleSim_pushes msg c cd h, ?_⟩
  rw [handleSim_pushes msg c cd h]
  simp

/-- C8 amended, instantiated at the first well-formed message. -/
theorem handleSim_accumulates_witness :
    (handleSimulationData msgFull initialClient).1.simulationData
      = initialClient.simulationData ++ [snapFull] ∧
    ((handleSimulationData msgFull initialClient).1.simulationData).length
      = initialClient.simulationData.length + 1 :=
  handleSim_accumulates msgFull initialClient snapFull rfl

/-- C9: per-sensor colors are the documented intent (the loop writes
`this.sensors[index].material.color` per index), but `createPanel` attaches
ONE shared material to all four sensor meshes, so each `setRGB` overwrites
the same color object: after readings [0, 500, 1000, 1500] every sensor
displays (0, 1, 0) — the color of the LAST reading — although the
per-reading gradient values are (1,0,0), (1/2,1/2,0), (0,1,0), (0,1,0). -/
theorem updateSensorReadings_shared_material :
    (updateSensorReadings [0, 500, 1000, 1500] sampleScene).2 = true ∧
    (updateSensorReadings [0, 500, 1000, 1500] sampleScene).1.materials
      = [{ r := 0, g := 1, b := 0 }] ∧
    sensorDisplayColor (updateSensorReadings [0, 500, 1000, 1500] sampleScene).1 0
      = some { r := 0, g := 1, b := 0 } ∧
    sensorDisplayColor (updateSensorReadings [0, 500, 1000, 1500] sampleScene).1 1
      = some { r := 0, g := 1, b := 0 } ∧
    sensorDisplayColor (updateSensorReadings [0, 500, 1000, 1500] sampleScene).1 2
      = some { r := 0, g := 1, b := 0 } ∧
    sensorDisplayColor (updateSensorReadings [0, 500, 1000, 1500] sampleScene).1 3
      = some { r := 0, g := 1, b := 0 } ∧
    sensorColorOf 0 = { r := 1, g := 0, b := 0 } ∧
    sensorColorOf 500 = { r := 1 / 2, g := 1 / 2, b := 0 } ∧
    sensorColorOf 1000 = { r := 0, g := 1, b := 0 } ∧
    sensorColorOf 1500 = { r := 0, g := 1, b := 0 } := by
  norm_num [updateSensorReadings, applyReadings, setColorAt, modifyIdx,
    sensorColorOf, sampleScene, sensorDisplayColor, min_def]

/-- In any client whose `charts` object holds the four standard keys while
the Plotly registry has no chart under the bare key `"irradiance"` (charts
live under their element ids such as `"irradiance-chart"`),
`resetSimulation` clears the snapshot history and then throws inside
`resetCharts`, leaving everything else exactly as it was. -/
theorem resetSim_throws_helper (c : ClientState) (hc : c.charts = chartsMap)
    (h1 : lookupChart c.plotly "irradiance" = none) :
    resetSimulation c = ({ c with simulationData := [] }, false) := by
  unfold resetSimulation resetCharts
  have hcc : ({ c with simulationData := [] } : ClientState).charts = chartsMap := hc
  rw [hcc]
  simp only [chartsMap, resetChartsGo]
  cases hl : lookupChart ({ c with simulationData := [] } : ClientState).plotly
      "irradiance-chart" with
  | none => rfl
  | some ch =>
      have h1c : lookupChart ({ c with simulationData := [] } : ClientState).plotly
          "irradiance" = none := h1
      simp [plotlyDeleteTraces, h1c]

/-- C5: the spec claims reset clears every chart series, resets both sinks
and zeroes the progress display; in the code, after one processed message
(progress 50, one point per trace), `resetSimulation` only empties the
snapshot history: the irradiance trace still holds its point, the progress
display still reads 50, the scene is untouched, and `resetCharts` throws
(it addresses Plotly by the registry keys instead of the element ids). -/
theorem resetSimulation_counterexample :
    dirtyClient.progressPercent = 50 ∧
    (traceAt dirtyClient.plotly "irradiance-chart" 0).map Trace.xs
      = some [JNum.fin 1] ∧
    resetSimulation dirtyClient = ({ dirtyClient with simulationData := [] }, false) := by
  refine ⟨rfl, ?_, resetSim_throws_helper dirtyClient rfl ?_⟩ <;>
    norm_num +decide [dirtyClient, handleSimulationData, msgFull, snapFull,
      initialClient, sampleScene, updateFromData, updatePanelOrientation,
      updateSunPosition, updateSensorReadings, applyReadings, setColorAt,
      modifyIdx, sensorColorOf, updateClouds, cloudStep, updateCharts,
      plotlyExtendTraces, lookupChart, setChart, initCharts, traceAt,
      extendData, extendTrace, timeMinOf, efficiencyOf, fieldVal, sensorAt,
      JVal.toNumber, JNum.div, JNum.mul]

/-- C5 amended: `resetSimulation` clears the local snapshot history and
nothing else: `resetCharts` addresses Plotly with the `charts`-object keys
(`"irradiance"`, …) although the charts are registered under their element
ids (`"irradiance-chart"`, …), so it throws, leaving every chart series
unchanged and skipping the status, progress and summary resets; no code
path resets the Scene Sink at all. -/
theorem resetSimulation_only_clears_history (c : ClientState)
    (hc : c.charts = chartsMap)
    (h1 : lookupChart c.plotly "irradiance" = none) :
    (resetSimulation c).1.simulationData = [] ∧
    (resetSimulation c).1.plotly = c.plotly ∧
    (resetSimulation c).1.scene = c.scene ∧
    (resetSimulation c).1.progressPercent = c.progressPercent ∧
    (resetSimulation c).1.summaryStats = c.summaryStats ∧
    (resetSimulation c).1.statusText = c.statusText ∧
    (resetSimulation c).2 = false := by
  rw [resetSim_throws_helper c hc h1]
  exact ⟨rfl, rfl, rfl, rfl, rfl, rfl, rfl⟩

/-- C5 amended, instantiated at the dirty client state. -/
theorem resetSimulation_only_clears_history_witness :
    (resetSimulation dirtyClient).1.simulationData = [] ∧
    (resetSimulation dirtyClient).1.plotly = dirtyClient.plotly ∧
    (resetSimulation dirtyClient).1.scene = dirtyClient.scene ∧
    (resetSimulation dirtyClient).1.progressPercent = dirtyClient.progressPercent ∧
    (resetSimulation dirtyClient).1.summaryStats = dirtyClient.summaryStats ∧
    (resetSimulation dirtyClient).1.statusText = dirtyClient.statusText ∧
    (resetSimulation dirtyClient).2 = false :=
  resetSimulation_only_clears_history dirtyClient rfl
    (by norm_num +decide [dirtyClient, handleSimulationData, msgFull, snapFull,
      initialClient, sampleScene, updateFromData, updatePanelOrientation,
      updateSunPosition, updateSensorReadings, applyReadings, setColorAt,
      modifyIdx, sensorColorOf, updateClouds, cloudStep, updateCharts,
      plotlyExtendTraces, lookupChart, setChart, initCharts, extendData,
      extendTrace, timeMinOf, efficiencyOf, fieldVal, sensorAt,
      JVal.toNumber, JNum.div, JNum.mul])

end SunTrack
